import Mathlib

/-!
Verification of the `m_relaymsg` module (src/3.0/m_relaymsg.cpp): the
RELAYMSG command handler, its validation pipeline, the relaymsg message
tag, and configuration reload.

The embedding models the module's own code faithfully; the host server's
collaborators (channel storage, nick registry, capability registry, the
`IsIdent`/`IsHost` syntax predicates and the encapsulated server-to-server
transport) appear as explicit data or function parameters, exactly at the
call sites the module uses.
-/

namespace RelayMsg

/-- A channel as the module sees it through `ServerInstance->FindChan` and
`Channel::HasUser`: a name and the uids of its members. Membership storage
itself is the host server's. -/
structure Channel where
  name : String
  members : List String
deriving DecidableEq

/-- The host server state the handler consults: the channel list
(`FindChan`) and the registry of nicks currently in use (`FindNick`). -/
structure ServerState where
  channels : List Channel
  nicks : List String
deriving DecidableEq

/-- A user as the handler observes it: uid (for `Channel::HasUser`),
current nick (`user->nick`, the tag payload), whether `IS_LOCAL(user)`
holds, whether `cap.get(user)` holds (the negotiated
overdrivenetworks.com/relaymsg capability), and whether the user holds the
server-operator flag `o` (`flags_needed` of the command). -/
structure User where
  uid : String
  nick : String
  isLocal : Bool
  hasCap : Bool
  isOper : Bool
deriving DecidableEq

/-- The module configuration as read by `ReadConfig`:
`cap.nick_separator`, `cmd.fake_ident`, `cmd.fake_host`. -/
structure ModState where
  nick_separator : String
  fake_ident : String
  fake_host : String
deriving DecidableEq

/-- `ServerInstance->FindChan(channame)`. -/
def findChan (st : ServerState) (channame : String) : Option Channel :=
  st.channels.find? (fun c => c.name == channame)

/-- `channel->HasUser(user)`. -/
def hasUser (c : Channel) (u : User) : Bool :=
  c.members.contains u.uid

/-- `ServerInstance->FindNick(nick)` viewed as the boolean the handler
uses (non-null pointer). -/
def findNick (st : ServerState) (nick : String) : Bool :=
  st.nicks.contains nick

/-- The fixed forbidden-character set, `invalid_chars = "!+%@&#$:'\"?*,."`
(the two `Char.ofNat` entries are the apostrophe, code 39, and the double
quote, code 34). -/
def invalid_chars : List Char :=
  ['!', '+', '%', '@', '&', '#', '$', ':', Char.ofNat 39, Char.ofNat 34, '?', '*', ',', '.']

/-- The per-character membership loop over `invalid_chars_map` in
`CommandRelayMsg::Handle`: true iff some character of the nick is in the
forbidden set. -/
def hasInvalidChar (nick : String) : Bool :=
  nick.toList.any (fun c => invalid_chars.contains c)

/-- `la` occurs at the head of `lb`. -/
def leadsWith : List Char → List Char → Bool
  | [], _ => true
  | _ :: _, [] => false
  | a :: as, b :: bs => a == b && leadsWith as bs

/-- `sep` occurs as a contiguous sublist of the second argument. -/
def containsSub (sep : List Char) : List Char → Bool
  | [] => leadsWith sep []
  | c :: cs => leadsWith sep (c :: cs) || containsSub sep cs

/-- `nick.find(sep) != std::string::npos`: substring containment (the
empty separator is found at position 0, as with `std::string::find`). -/
def containsSep (nick sep : String) : Bool :=
  containsSub sep.toList nick.toList

/-- A printf-style `%s` formatter modelling the `InspIRCd::Format` calls
the module makes (all of its format strings use only `%s`). -/
def formatS : List Char → List String → String
  | [], _ => ""
  | '%' :: 's' :: rest, arg :: args => arg ++ formatS rest args
  | c :: rest, args => String.singleton c ++ formatS rest args

/-- `CommandRelayMsg::GetFakeHostmask`:
`InspIRCd::Format("%s!%s@%s", nick, fake_ident, fake_host)`. -/
def GetFakeHostmask (fake_ident fake_host nick : String) : String :=
  formatS "%s!%s@%s".toList [nick, fake_ident, fake_host]

/-- The numerics the handler writes on its failure paths, plus the
permission numeric of the host dispatcher (see `Dispatch`). -/
inductive RelayNumeric
  /-- `Numerics::NoSuchChannel(channame)` -/
  | noSuchChannel (chan : String)
  /-- `Numerics::CannotSendTo(channel, "You must be in the channel ...")` -/
  | cannotSendTo (chan : String)
  /-- `ERR_BADRELAYNICK ... "RELAYMSG spoofed nick is already in use"` -/
  | nickInUse (nick : String)
  /-- `ERR_BADRELAYNICK ... "Invalid characters in spoofed nick"` -/
  | invalidChars (nick : String)
  /-- `ERR_BADRELAYNICK ... "Spoofed nickname must include separator %s"` -/
  | missingSeparator (nick : String) (sep : String)
  /-- Modelled from the spec: the permission-denied signal the host
  command dispatcher sends to a local issuer who lacks the command's
  required flag (`flags_needed = 'o'`); this enforcement lives in the host
  server, not in the module source. -/
  | noPrivileges
deriving DecidableEq

/-- The PRIVMSG the handler constructs: forged source hostmask, target
channel, text, and the value of the `relaymsg` tag attached via
`privmsg.AddTag("relaymsg", &captag, user->nick)`. -/
structure Privmsg where
  source : String
  chan : String
  text : String
  relaymsgTag : String
deriving DecidableEq

/-- Observable side effects of one handler run, in order: numerics written
to the issuer, local channel delivery (`channel->Write`), and mesh
propagation (`PI->SendEncapsulatedData("*", "RELAYMSG", params, user)`,
carrying the parameter list). -/
inductive Event
  | numeric (n : RelayNumeric)
  | deliver (m : Privmsg)
  | propagate (params : List String)
deriving DecidableEq

/-- `CmdResult`: `CMD_SUCCESS` or `CMD_FAILURE`. -/
inductive CmdResult
  | success
  | failure
deriving DecidableEq

/-- `CommandRelayMsg::Handle`, returning the command result together with
the ordered trace of observable effects. Mirrors the source line by line:
capability check (local only, silent), `FindChan`, `HasUser`, `FindNick`,
forbidden-character scan, separator check (local only), then delivery and
— for local issuers — encapsulated propagation with params
`[channame, nick, ":" + text]`. -/
def Handle (cfg : ModState) (st : ServerState) (user : User)
    (channame nick text : String) : CmdResult × List Event :=
  if user.isLocal && !user.hasCap then
    (.failure, [])
  else
    match findChan st channame with
    | none => (.failure, [.numeric (.noSuchChannel channame)])
    | some channel =>
      if !(hasUser channel user) then
        (.failure, [.numeric (.cannotSendTo channame)])
      else if findNick st nick then
        (.failure, [.numeric (.nickInUse nick)])
      else if hasInvalidChar nick then
        (.failure, [.numeric (.invalidChars nick)])
      else if user.isLocal && !(containsSep nick cfg.nick_separator) then
        (.failure, [.numeric (.missingSeparator nick cfg.nick_separator)])
      else
        let msg : Privmsg :=
          { source := GetFakeHostmask cfg.fake_ident cfg.fake_host nick
            chan := channame
            text := text
            relaymsgTag := user.nick }
        if user.isLocal then
          (.success, [.deliver msg, .propagate [channame, nick, ":" ++ text]])
        else
          (.success, [.deliver msg])

/-- `RelayMsgCapTag::ShouldSendTag`: the tag is sent to a recipient iff
`cap.get(user)` holds for that recipient. -/
def ShouldSendTag (recipient : User) : Bool :=
  recipient.hasCap

/-- Modelled from the spec: the host server's command dispatcher enforces
the command's required flag (`flags_needed = 'o'`, set in
`CommandRelayMsg`'s constructor) before the handler runs for a local
issuer; the enforcement itself is host-server code, absent from the
module source. A local non-oper is rejected with a permission-denied
numeric and the handler never runs; remote origins bypass the gate. -/
def Dispatch (cfg : ModState) (st : ServerState) (user : User)
    (channame nick text : String) : CmdResult × List Event :=
  if user.isLocal && !user.isOper then
    (.failure, [.numeric .noPrivileges])
  else
    Handle cfg st user channame nick text

/-- The raw `<relaymsg>` config tag as `ReadConfig` reads it: each of
`getString("separator", ...)`, `getString("ident", ...)`,
`getString("host", ...)` yields the configured string or the default. -/
structure ConfigTag where
  separator : Option String
  ident : Option String
  host : Option String
deriving DecidableEq

/-- `ModuleException`: which validation threw. -/
inductive ModuleException
  /-- `"Invalid ident value for <relaymsg>"` -/
  | invalidIdent
  /-- `"Invalid host value for <relaymsg>"` -/
  | invalidHost
deriving DecidableEq

/-- `ModuleRelayMsg::ReadConfig`. `isIdent` and `isHost` are the host
server's `ServerInstance->IsIdent` / `IsHost` syntax predicates;
`serverName` is `ServerInstance->Config->ServerName`; `prev` is the
module state before the reload. Exactly as in the source, all three
fields are assigned from the tag first, and only then are ident and host
validated; a validation failure is the thrown exception, returned
alongside the state the fields were left in. -/
def ReadConfig (isIdent isHost : String → Bool) (tag : ConfigTag)
    (serverName : String) (prev : ModState) : Option ModuleException × ModState :=
  let next : ModState :=
    { nick_separator := tag.separator.getD "/"
      fake_ident := tag.ident.getD "relay"
      fake_host := tag.host.getD serverName }
  if !(isIdent next.fake_ident) then
    (some .invalidIdent, next)
  else if !(isHost next.fake_host) then
    (some .invalidHost, next)
  else
    (none, next)

/-- The handler's behaviour on a remote-origin request as the amended C1
states it: the capability check and the separator check are skipped, while
the channel-existence, membership, collision and forbidden-character
checks all run, in that order, before delivery; no propagation. -/
def remoteBehavior (cfg : ModState) (st : ServerState) (user : User)
    (channame nick text : String) : CmdResult × List Event :=
  match findChan st channame with
  | none => (.failure, [.numeric (.noSuchChannel channame)])
  | some channel =>
    if !(hasUser channel user) then
      (.failure, [.numeric (.cannotSendTo channame)])
    else if findNick st nick then
      (.failure, [.numeric (.nickInUse nick)])
    else if hasInvalidChar nick then
      (.failure, [.numeric (.invalidChars nick)])
    else
      (.success, [.deliver
        { source := GetFakeHostmask cfg.fake_ident cfg.fake_host nick
          chan := channame
          text := text
          relaymsgTag := user.nick }])

/-! ## Concrete fixtures used by witnesses and counterexamples -/

/-- Fixture configuration: separator `/`, ident `relay`, host
`relay.example.com`. -/
def cfgA : ModState :=
  { nick_separator := "/", fake_ident := "relay", fake_host := "relay.example.com" }

/-- Fixture channel `#chat` with members `u1`, `u2`. -/
def chanA : Channel := { name := "#chat", members := ["u1", "u2"] }

/-- Fixture server state: one channel, registered nicks `alice`, `bob`. -/
def stA : ServerState := { channels := [chanA], nicks := ["alice", "bob"] }

/-- Fixture local oper `alice` with the relaymsg capability. -/
def localOper : User :=
  { uid := "u1", nick := "alice", isLocal := true, hasCap := true, isOper := true }

/-- Fixture local oper without the relaymsg capability. -/
def localNoCap : User :=
  { uid := "u1", nick := "alice", isLocal := true, hasCap := false, isOper := true }

/-- Fixture remote user `bob` (member of `#chat` via uid `u2`). -/
def remoteU : User :=
  { uid := "u2", nick := "bob", isLocal := false, hasCap := false, isOper := false }

/-- Fixture remote user not in any channel. -/
def remoteStranger : User :=
  { uid := "u9", nick := "eve", isLocal := false, hasCap := false, isOper := false }

/-! ## Theorems -/

/-- The message a successful run delivers. -/
def deliveredMsg (cfg : ModState) (u : User) (channame nick text : String) : Privmsg :=
  { source := GetFakeHostmask cfg.fake_ident cfg.fake_host nick
    chan := channame
    text := text
    relaymsgTag := u.nick }

/-- Workhorse: a successful run means every check passed, and the trace is
exactly one delivery followed, for a local issuer, by one propagation. -/
lemma Handle_success_shape (cfg : ModState) (st : ServerState) (u : User)
    (ch n t : String) :
    (Handle cfg st u ch n t).1 = .success →
      (u.isLocal = true → u.hasCap = true ∧ containsSep n cfg.nick_separator = true) ∧
      (∃ c, findChan st ch = some c ∧ hasUser c u = true) ∧
      findNick st n = false ∧ hasInvalidChar n = false ∧
      Handle cfg st u ch n t = (.success, .deliver (deliveredMsg cfg u ch n t) ::
        (if u.isLocal = true then [.propagate [ch, n, ":" ++ t]] else [])) := by
  unfold Handle deliveredMsg
  by_cases h1 : (u.isLocal && !u.hasCap) = true
  · simp [h1]
  · cases hfc : findChan st ch with
    | none => simp [h1, hfc]
    | some c =>
      by_cases h2 : hasUser c u <;>
      by_cases h3 : findNick st n <;>
      by_cases h4 : hasInvalidChar n <;>
      by_cases h5 : (u.isLocal && !(containsSep n cfg.nick_separator)) = true <;>
      by_cases h6 : u.isLocal = true <;>
      simp_all

/-- Workhorse: a failed run's trace is empty or a single numeric. -/
lemma Handle_failure_shape (cfg : ModState) (st : ServerState) (u : User)
    (ch n t : String) :
    (Handle cfg st u ch n t).1 = .failure →
      (Handle cfg st u ch n t).2 = [] ∨
      ∃ nn, (Handle cfg st u ch n t).2 = [Event.numeric nn] := by
  unfold Handle
  by_cases h1 : (u.isLocal && !u.hasCap) = true
  · simp [h1]
  · cases hfc : findChan st ch with
    | none => simp [h1, hfc]
    | some c =>
      by_cases h2 : hasUser c u <;>
      by_cases h3 : findNick st n <;>
      by_cases h4 : hasInvalidChar n <;>
      by_cases h5 : (u.isLocal && !(containsSep n cfg.nick_separator)) = true <;>
      by_cases h6 : u.isLocal = true <;>
      simp_all

/-- A command result is success or failure. -/
lemma CmdResult.success_or_failure (r : CmdResult) : r = .success ∨ r = .failure := by
  cases r <;> simp

/-- C1 counterexample: the claim is false for remote-origin requests on
both counts. `remoteStranger` (remote, not in `#chat`) is rejected by the
channel-membership check, which the claim says is not performed; and
`remoteU`'s request with nick `carol` — which lacks the configured
separator `/` — is delivered, so the separator half of the nick-shape
validation is not run for remote origin. -/
theorem C1_counterexample :
    remoteStranger.isLocal = false ∧
    Handle cfgA stA remoteStranger "#chat" "carol" "hi" =
      (.failure, [.numeric (.cannotSendTo "#chat")]) ∧
    remoteU.isLocal = false ∧
    containsSep "carol" cfgA.nick_separator = false ∧
    (Handle cfgA stA remoteU "#chat" "carol" "hi").1 = .success := by
  decide

/-- C1 (amended): a remote-origin request skips the authorization
(capability) check and the separator check, but does undergo the
channel-existence check, the local channel-membership check, the
nick-collision lookup and the forbidden-character check, in that order,
before delivery; it is never propagated. -/
theorem C1_remote_request_behaviour (cfg : ModState) (st : ServerState)
    (u : User) (ch n t : String) (h : u.isLocal = false) :
    Handle cfg st u ch n t = remoteBehavior cfg st u ch n t := by
  unfold Handle remoteBehavior
  rw [h]
  cases hfc : findChan st ch <;> simp [hfc]

/-- Witness for C1: the amended theorem at a concrete remote request. -/
theorem C1_witness :
    remoteU.isLocal = false ∧
    Handle cfgA stA remoteU "#chat" "carol" "hi" =
      remoteBehavior cfgA stA remoteU "#chat" "carol" "hi" :=
  ⟨by decide, C1_remote_request_behaviour cfgA stA remoteU "#chat" "carol" "hi" (by decide)⟩

/-- A config tag with an invalid ident value. -/
def badTag : ConfigTag :=
  { separator := some "|", ident := some "bad ident", host := none }

/-- C2 counterexample: with an ident value rejected by the host's ident
check, the reload fails, yet the separator observable by later requests
has already been changed from `/` to `|` — the previous configuration is
not retained. -/
theorem C2_counterexample :
    (ReadConfig (fun s => s == "relay") (fun _ => true) badTag "srv" cfgA).1 =
      some .invalidIdent ∧
    (ReadConfig (fun s => s == "relay") (fun _ => true) badTag "srv" cfgA).2.nick_separator = "|" ∧
    cfgA.nick_separator = "/" := by
  decide

/-- C2 (amended): the reload is fail-fast — it fails exactly when the
ident or host value is invalid — but it is not atomic: whatever the
outcome, all three configuration values have already been assigned from
the new tag, so a failed reload still replaces the previous values. -/
theorem C2_reload_failfast_not_atomic (isIdent isHost : String → Bool)
    (tag : ConfigTag) (serverName : String) (prev : ModState) :
    (ReadConfig isIdent isHost tag serverName prev).2 =
      { nick_separator := tag.separator.getD "/"
        fake_ident := tag.ident.getD "relay"
        fake_host := tag.host.getD serverName } ∧
    ((ReadConfig isIdent isHost tag serverName prev).1 = none ↔
      (isIdent (tag.ident.getD "relay") = true ∧
       isHost (tag.host.getD serverName) = true)) := by
  unfold ReadConfig
  by_cases hi : isIdent (tag.ident.getD "relay") = true <;>
  by_cases hh : isHost (tag.host.getD serverName) = true <;>
  simp [hi, hh]

/-- C3 counterexample: `alice` is a registered nick, yet a relay request
with synthetic nick `alice` to the nonexistent channel `#nochan` fails
with the no-such-channel error, not the collision error — the error is
not independent of channel state. -/
theorem C3_counterexample :
    findNick stA "alice" = true ∧
    findChan stA "#nochan" = none ∧
    Handle cfgA stA remoteU "#nochan" "alice" "hi" =
      (.failure, [.numeric (.noSuchChannel "#nochan")]) := by
  decide

/-- C3 (amended): while the synthetic nick collides with a registered
nick, the request never delivers, whatever the channel and permission
state; and whenever the request passes the capability, channel-existence
and membership checks, it fails specifically with the collision error. -/
theorem C3_registered_nick_always_fails (cfg : ModState) (st : ServerState)
    (u : User) (ch n t : String) (h : findNick st n = true) :
    (Handle cfg st u ch n t).1 = .failure ∧
    (∀ c, findChan st ch = some c → hasUser c u = true →
      (u.isLocal = true → u.hasCap = true) →
      Handle cfg st u ch n t = (.failure, [.numeric (.nickInUse n)])) := by
  constructor
  · rcases CmdResult.success_or_failure (Handle cfg st u ch n t).1 with hs | hf
    · have := (Handle_success_shape cfg st u ch n t hs).2.2.1
      rw [h] at this
      exact absurd this (by simp)
    · exact hf
  · intro c hfc hmem hcap
    unfold Handle
    cases hl : u.isLocal with
    | false => simp [hl, hfc, hmem, h]
    | true => simp [hl, hcap hl, hfc, hmem, h]

/-- Witness for C3: the amended theorem at a concrete request whose
synthetic nick `alice` is registered. -/
theorem C3_witness :
    findNick stA "alice" = true ∧
    ((Handle cfgA stA remoteU "#chat" "alice" "hi").1 = .failure ∧
     (∀ c, findChan stA "#chat" = some c → hasUser c remoteU = true →
       (remoteU.isLocal = true → remoteU.hasCap = true) →
       Handle cfgA stA remoteU "#chat" "alice" "hi" =
         (.failure, [.numeric (.nickInUse "alice")]))) :=
  ⟨by decide, C3_registered_nick_always_fails cfgA stA remoteU "#chat" "alice" "hi" (by decide)⟩

/-- C4 counterexample: a local oper without the relaymsg capability is
rejected with an empty effect trace — in particular no permission-denied
signal of any kind is emitted to the issuer, contrary to the claim. -/
theorem C4_counterexample :
    localNoCap.isLocal = true ∧ localNoCap.hasCap = false ∧
    Handle cfgA stA localNoCap "#chat" "x/y" "hi" = (.failure, []) := by
  decide

/-- C4 (amended): a local-origin request whose issuer lacks the relaymsg
capability is rejected before any channel or nick lookup (the outcome is
the same for every server state) and produces no side effects at all —
no delivery, no propagation, and also no reply: the rejection is silent,
with no permission-denied signal to the issuer. -/
theorem C4_local_without_cap_silent (cfg : ModState) (st : ServerState)
    (u : User) (ch n t : String) (h1 : u.isLocal = true) (h2 : u.hasCap = false) :
    Handle cfg st u ch n t = (.failure, []) := by
  unfold Handle
  rw [h1, h2]
  rfl

/-- Witness for C4: the amended theorem at a concrete capability-less
local oper. -/
theorem C4_witness :
    localNoCap.isLocal = true ∧ localNoCap.hasCap = false ∧
    Handle cfgA stA localNoCap "#chat" "x/y" "hi" = (.failure, []) :=
  ⟨by decide, by decide,
    C4_local_without_cap_silent cfgA stA localNoCap "#chat" "x/y" "hi" (by decide) (by decide)⟩

/-- C5: a failed request never propagates — no `SendEncapsulatedData`
event occurs in the trace of a run that returns `CMD_FAILURE`. -/
theorem C5_failure_never_propagates (cfg : ModState) (st : ServerState)
    (u : User) (ch n t : String) (h : (Handle cfg st u ch n t).1 = .failure) :
    ∀ ps, Event.propagate ps ∉ (Handle cfg st u ch n t).2 := by
  intro ps
  rcases Handle_failure_shape cfg st u ch n t h with he | ⟨nn, he⟩ <;> simp [he]

/-- Witness for C5: the theorem at a concrete failing request (nick
collision). -/
theorem C5_witness :
    (Handle cfgA stA remoteU "#chat" "alice" "hi").1 = .failure ∧
    ∀ ps, Event.propagate ps ∉ (Handle cfgA stA remoteU "#chat" "alice" "hi").2 :=
  ⟨by decide, C5_failure_never_propagates cfgA stA remoteU "#chat" "alice" "hi" (by decide)⟩

/-- C6 counterexample: the nick `a!b` contains the forbidden character
`!`, yet the request addressed to the nonexistent channel `#nochan` is
rejected with the no-such-channel error, not the invalid-spoofed-nick
error. -/
theorem C6_counterexample :
    hasInvalidChar "a!b" = true ∧
    Handle cfgA stA remoteU "#nochan" "a!b" "hi" =
      (.failure, [.numeric (.noSuchChannel "#nochan")]) := by
  decide

/-- C6 (amended): a request whose nick contains a forbidden character is
never delivered, for both local and remote origin and regardless of the
configured separator; and whenever it passes the capability,
channel-existence, membership and collision checks, it is rejected with
the invalid-spoofed-nick (invalid characters) error. -/
theorem C6_forbidden_char_never_delivered (cfg : ModState) (st : ServerState)
    (u : User) (ch n t : String) (h : hasInvalidChar n = true) :
    (Handle cfg st u ch n t).1 = .failure ∧
    (∀ c, findChan st ch = some c → hasUser c u = true → findNick st n = false →
      (u.isLocal = true → u.hasCap = true) →
      Handle cfg st u ch n t = (.failure, [.numeric (.invalidChars n)])) := by
  constructor
  · rcases CmdResult.success_or_failure (Handle cfg st u ch n t).1 with hs | hf
    · have := (Handle_success_shape cfg st u ch n t hs).2.2.2.1
      rw [h] at this
      exact absurd this (by simp)
    · exact hf
  · intro c hfc hmem hreg hcap
    unfold Handle
    cases hl : u.isLocal with
    | false => simp [hl, hfc, hmem, hreg, h]
    | true => simp [hl, hcap hl, hfc, hmem, hreg, h]

/-- Witness for C6: the amended theorem at a concrete remote request whose
nick contains `!`. -/
theorem C6_witness :
    hasInvalidChar "a!b" = true ∧
    ((Handle cfgA stA remoteU "#chat" "a!b" "hi").1 = .failure ∧
     (∀ c, findChan stA "#chat" = some c → hasUser c remoteU = true →
       findNick stA "a!b" = false →
       (remoteU.isLocal = true → remoteU.hasCap = true) →
       Handle cfgA stA remoteU "#chat" "a!b" "hi" =
         (.failure, [.numeric (.invalidChars "a!b")]))) :=
  ⟨by decide, C6_forbidden_char_never_delivered cfgA stA remoteU "#chat" "a!b" "hi" (by decide)⟩

/-- C7: a successful run's trace is exactly one local delivery followed —
for local origin only — by one mesh propagation carrying
`[channel, nick, ":" ++ text]`; delivery always precedes propagation and a
remote-origin request is never re-propagated. -/
theorem C7_deliver_then_propagate_iff_local (cfg : ModState) (st : ServerState)
    (u : User) (ch n t : String) (h : (Handle cfg st u ch n t).1 = .success) :
    (Handle cfg st u ch n t).2 = .deliver (deliveredMsg cfg u ch n t) ::
      (if u.isLocal = true then [.propagate [ch, n, ":" ++ t]] else []) := by
  have he := (Handle_success_shape cfg st u ch n t h).2.2.2.2
  rw [he]

/-- Witness for C7: the theorem at a concrete successful local request. -/
theorem C7_witness :
    (Handle cfgA stA localOper "#chat" "x/y" "hi").1 = .success ∧
    (Handle cfgA stA localOper "#chat" "x/y" "hi").2 =
      .deliver (deliveredMsg cfgA localOper "#chat" "x/y" "hi") ::
        (if localOper.isLocal = true
          then [.propagate ["#chat", "x/y", ":" ++ "hi"]] else []) :=
  ⟨by decide, C7_deliver_then_propagate_iff_local cfgA stA localOper "#chat" "x/y" "hi" (by decide)⟩

/-- C8: the delivered message's `relaymsg` tag value is the nick of the
issuing actor (`user->nick`), which — whenever the issuer's nick is
registered, as every connected user's is — differs from the synthetic
nick; and the tag is sent to a recipient iff that recipient negotiated
the relaymsg capability (`ShouldSendTag` is exactly `cap.get`). -/
theorem C8_tag_carries_true_identity (cfg : ModState) (st : ServerState)
    (u : User) (ch n t : String) (m : Privmsg) (tr : List Event)
    (h : Handle cfg st u ch n t = (.success, .deliver m :: tr)) :
    m.relaymsgTag = u.nick ∧
    (findNick st u.nick = true → m.relaymsgTag ≠ n) ∧
    (∀ r : User, ShouldSendTag r = r.hasCap) := by
  have hs : (Handle cfg st u ch n t).1 = .success := by rw [h]
  have hshape := Handle_success_shape cfg st u ch n t hs
  have he := hshape.2.2.2.2
  rw [h] at he
  simp only [Prod.mk.injEq, List.cons.injEq, Event.deliver.injEq, true_and] at he
  have hm : m = deliveredMsg cfg u ch n t := he.1
  refine ⟨by rw [hm]; rfl, ?_, fun r => rfl⟩
  intro hreg heq
  rw [hm] at heq
  have hn : u.nick = n := heq
  rw [hn] at hreg
  have := hshape.2.2.1
  rw [this] at hreg
  exact absurd hreg (by simp)

/-- Witness for C8: the theorem at a concrete successful local request. -/
theorem C8_witness :
    Handle cfgA stA localOper "#chat" "x/y" "hi" =
      (.success, .deliver (deliveredMsg cfgA localOper "#chat" "x/y" "hi") ::
        [.propagate ["#chat", "x/y", ":" ++ "hi"]]) ∧
    ((deliveredMsg cfgA localOper "#chat" "x/y" "hi").relaymsgTag = localOper.nick ∧
     (findNick stA localOper.nick = true →
       (deliveredMsg cfgA localOper "#chat" "x/y" "hi").relaymsgTag ≠ "x/y") ∧
     (∀ r : User, ShouldSendTag r = r.hasCap)) :=
  ⟨by decide,
    C8_tag_carries_true_identity cfgA stA localOper "#chat" "x/y" "hi"
      (deliveredMsg cfgA localOper "#chat" "x/y" "hi")
      [.propagate ["#chat", "x/y", ":" ++ "hi"]] (by decide)⟩

/-- C10: for a local-origin invocation, delivery requires both the
server-operator flag (enforced by the dispatcher's `flags_needed = 'o'`
gate before the handler runs) and the negotiated relaymsg capability;
and a local oper lacking the capability is rejected silently — failure
with no numeric and no notice. -/
theorem C10_local_needs_oper_and_cap (cfg : ModState) (st : ServerState)
    (u : User) (ch n t : String) (hl : u.isLocal = true) :
    ((Dispatch cfg st u ch n t).1 = .success → u.isOper = true ∧ u.hasCap = true) ∧
    (u.isOper = true → u.hasCap = false →
      Dispatch cfg st u ch n t = (.failure, [])) := by
  constructor
  · intro hs
    unfold Dispatch at hs
    by_cases ho : u.isOper = true
    · refine ⟨ho, ?_⟩
      rw [if_neg (by simp [hl, ho])] at hs
      by_cases hc : u.hasCap = true
      · exact hc
      · rw [Bool.not_eq_true] at hc
        unfold Handle at hs
        rw [hl, hc] at hs
        simp at hs
    · rw [Bool.not_eq_true] at ho
      rw [if_pos (by simp [hl, ho])] at hs
      simp at hs
  · intro ho hc
    unfold Dispatch Handle
    rw [hl, ho, hc]
    rfl

/-- Witness for C10: the theorem at a concrete capability-less local
oper. -/
theorem C10_witness :
    localNoCap.isLocal = true ∧
    (((Dispatch cfgA stA localNoCap "#chat" "x/y" "hi").1 = .success →
        localNoCap.isOper = true ∧ localNoCap.hasCap = true) ∧
     (localNoCap.isOper = true → localNoCap.hasCap = false →
       Dispatch cfgA stA localNoCap "#chat" "x/y" "hi" = (.failure, []))) :=
  ⟨by decide, C10_local_needs_oper_and_cap cfgA stA localNoCap "#chat" "x/y" "hi" (by decide)⟩

/-- C9: `GetFakeHostmask` (the `forge` of the spec) is a pure total
function whose output is the literal concatenation
`nick ++ "!" ++ ident ++ "@" ++ host`, for all string inputs. -/
theorem C9_forge_is_literal_concat (fake_ident fake_host nick : String) :
    GetFakeHostmask fake_ident fake_host nick =
      nick ++ "!" ++ fake_ident ++ "@" ++ fake_host := by
  apply String.ext
  simp [GetFakeHostmask, formatS, String.singleton]

end RelayMsg
